import Mathlib

/-!
Verification development for the `invite` / `openrsvp_cli` command-line client.
The Python sources are embedded shallowly: pure fragments become Lean
functions, filesystem and network effects become explicit input data
(parse results, transport results), and Python exceptions become `Except`.
-/

set_option autoImplicit false

namespace Invite

/-- Python `str.rstrip("/")`: remove every trailing `/` character. -/
def rstripSlash (s : String) : String :=
  String.mk ((s.data.reverse.dropWhile (fun c => c = '/')).reverse)

/-- Python `a or b` on optional strings: `a` when it is truthy
(present and non-empty), otherwise `b`. -/
def pyOrStr (a b : Option String) : Option String :=
  match a with
  | some s => if s = "" then b else some s
  | none => b

/-- Python `a or d` where `d` is a plain (always truthy) string literal:
the value of `a` when truthy, otherwise `d`. -/
def pyOrDefault (a : Option String) (d : String) : String :=
  match a with
  | some s => if s = "" then d else s
  | none => d

/-- Python runtime values as produced by `tomllib.load` / `response.json()`:
strings, integers, booleans, `None`, lists and string-keyed dicts. -/
inductive Py where
  | pstr (s : String)
  | pint (n : Int)
  | pbool (b : Bool)
  | pnone
  | plist (xs : List Py)
  | pdict (fields : List (String × Py))
deriving Repr

/-- Python truthiness of a value. -/
def pyTruthy : Py → Bool
  | .pstr s => s ≠ ""
  | .pint n => n ≠ 0
  | .pbool b => b
  | .pnone => false
  | .plist xs => !xs.isEmpty
  | .pdict fs => !fs.isEmpty

/-- Python `isinstance(v, str)`. -/
def pyIsStr : Py → Bool
  | .pstr _ => true
  | _ => false

/-- Python `isinstance(v, dict)`. -/
def pyIsDict : Py → Bool
  | .pdict _ => true
  | _ => false

mutual

/-- Python `repr` of a value (also `str` for non-string values): single-quoted
strings, `True`/`False`/`None`, `[..]` lists, `\x7b'k': v\x7d` dicts. Escaping of
quote characters inside strings is not modelled; no claim exercises it. -/
def pyRepr : Py → String
  | .pstr s => "\x27" ++ s ++ "\x27"
  | .pint n => toString n
  | .pbool b => if b then "True" else "False"
  | .pnone => "None"
  | .plist xs => "[" ++ pyReprList xs ++ "]"
  | .pdict fs => "\x7b" ++ pyReprFields fs ++ "\x7d"

/-- Comma-separated `repr`s of the elements of a Python list. -/
def pyReprList : List Py → String
  | [] => ""
  | [x] => pyRepr x
  | x :: xs => pyRepr x ++ ", " ++ pyReprList xs

/-- Comma-separated `'key': repr(value)` renderings of dict entries. -/
def pyReprFields : List (String × Py) → String
  | [] => ""
  | [(k, v)] => "\x27" ++ k ++ "\x27: " ++ pyRepr v
  | (k, v) :: fs => "\x27" ++ k ++ "\x27: " ++ pyRepr v ++ ", " ++ pyReprFields fs

end

/-- Python `str(v)`: the string itself for strings, `repr` otherwise. -/
def pyStr (v : Py) : String :=
  match v with
  | .pstr s => s
  | v => pyRepr v

/-! ## openrsvp_cli/config.py -/

/-- The dict of optional string fields returned by `_read_config_file` and
also the shape of the `env_config` dict in `load_settings`. -/
structure PartialConfig where
  base_url : Option String
  token : Option String
  default_channel : Option String
deriving DecidableEq, Repr

/-- The all-`None` configuration dict (`{}` lookups all miss). -/
def PartialConfig.empty : PartialConfig :=
  { base_url := none, token := none, default_channel := none }

/-- Outcome of `path.exists()` plus `tomllib.load`: the file may be missing,
loading may raise, or it yields a string-keyed document. -/
inductive TomlLoadResult where
  | missing
  | loadError
  | loaded (doc : List (String × Py))

/-- Field extraction from the chosen section:
`str(v) if v is not None else None` for each of the three keys. -/
def extractFields (sectionDoc : List (String × Py)) : PartialConfig :=
  { base_url := (sectionDoc.lookup "base_url").map pyStr
    token := (sectionDoc.lookup "token").map pyStr
    default_channel := (sectionDoc.lookup "default_channel").map pyStr }

/-- `_read_config_file`: missing file and load exceptions give `{}`; otherwise
the `openrsvp` key, when bound to a dict, replaces the whole document as the
section that is read; a non-dict `openrsvp` value makes `.get` raise
`AttributeError` (modelled as `Except.error`); with no `openrsvp` key the
top-level document itself is read. -/
def _read_config_file (r : TomlLoadResult) : Except String PartialConfig :=
  match r with
  | .missing => .ok PartialConfig.empty
  | .loadError => .ok PartialConfig.empty
  | .loaded doc =>
    match doc.lookup "openrsvp" with
    | some (.pdict sectionDoc) => .ok (extractFields sectionDoc)
    | some _ => .error "AttributeError: object has no attribute get"
    | none => .ok (extractFields doc)

/-- Resolved configuration for the CLI (the `Settings` dataclass). -/
structure Settings where
  base_url : String
  token : Option String
  default_channel : Option String
  output_json : Bool := false
  quiet : Bool := false
deriving DecidableEq, Repr

/-- The hardcoded fallback base URL in `load_settings`. -/
def DEFAULT_BASE_URL : String := "http://localhost:8000"

/-- `load_settings`: merge CLI values, environment values and config-file
values with Python `or` chains (CLI over env over file), defaulting
`base_url` to `DEFAULT_BASE_URL` and finally stripping trailing slashes
from it. -/
def load_settings (cli_base_url cli_token cli_default_channel : Option String)
    (env_config file_config : PartialConfig)
    (output_json : Bool := false) (quiet : Bool := false) : Settings :=
  let base_url :=
    pyOrDefault (pyOrStr cli_base_url (pyOrStr env_config.base_url file_config.base_url))
      DEFAULT_BASE_URL
  let token := pyOrStr cli_token (pyOrStr env_config.token file_config.token)
  let default_channel :=
    pyOrStr cli_default_channel
      (pyOrStr env_config.default_channel file_config.default_channel)
  { base_url := rstripSlash base_url
    token := token
    default_channel := default_channel
    output_json := output_json
    quiet := quiet }

/-! ## openrsvp_cli/client.py -/

/-- An HTTP response as the client observes it: the status code, the result
of `response.json()` (`none` when the body is not valid JSON and the call
raises `ValueError`), and `response.text`. -/
structure HttpResponse where
  status : Nat
  jsonParse : Option Py
  text : String
deriving Repr

/-- Outcome of `self._client.request(...)`: either `httpx.RequestError`
with its message, or a response. -/
inductive TransportResult where
  | exc (message : String)
  | resp (r : HttpResponse)
deriving Repr

/-- Result of `APIClient._request`: the raised error or the returned payload. -/
inductive ReqOutcome where
  | networkError (message : String)
  | authError (status : Nat) (message : String)
  | apiError (status : Nat) (message : String) (payload : Py)
  | success (payload : Py)
deriving Repr

/-- The fixed guidance message attached to every `AuthError`. -/
def authGuidance : String :=
  "Authentication failed. Provide a valid token via --token, OPENRSVP_TOKEN, or ~/.config/openrsvp/config.toml."

/-- httpx `response.is_error`: any 4xx or 5xx status. -/
def isErrorStatus (status : Nat) : Bool :=
  400 ≤ status && status ≤ 599

/-- The payload computed by `_request`: the parsed JSON value, or the raw
response text when parsing raised `ValueError`. -/
def responsePayload (r : HttpResponse) : Py :=
  match r.jsonParse with
  | some v => v
  | none => .pstr r.text

/-- `APIClient._request` after the HTTP call: transport exceptions become
`NetworkError` naming the base URL; status 401/403 becomes `AuthError` with
the fixed guidance, before any body parsing; otherwise the body is parsed,
4xx/5xx raises `APIError` with `str(message)` where
`message = payload if isinstance(payload, str) else payload or response.text`,
and every other status returns the payload. -/
def requestOutcome (base_url : String) (t : TransportResult) : ReqOutcome :=
  match t with
  | .exc e => .networkError ("Network error contacting " ++ base_url ++ ": " ++ e)
  | .resp r =>
    if r.status = 401 ∨ r.status = 403 then
      .authError r.status authGuidance
    else
      let payload := responsePayload r
      if isErrorStatus r.status then
        let message := if pyIsStr payload then payload
          else if pyTruthy payload then payload else .pstr r.text
        .apiError r.status (pyStr message) payload
      else
        .success payload

/-- The state `APIClient.__aenter__` builds: an `httpx.AsyncClient` carrying
the base URL, the constructed headers, and a 10-second timeout. -/
structure OpenClient where
  base_url : String
  headers : List (String × String)
  timeoutSeconds : Nat
deriving DecidableEq, Repr

/-- Header construction in `__aenter__`: `Authorization: Bearer <token>`
exactly when `self.settings.token` is truthy (present and non-empty). -/
def aenterHeaders (s : Settings) : List (String × String) :=
  match s.token with
  | some tok => if tok = "" then [] else [("Authorization", "Bearer " ++ tok)]
  | none => []

/-- `APIClient.__aenter__` on given settings. -/
def aenter (s : Settings) : OpenClient :=
  { base_url := s.base_url, headers := aenterHeaders s, timeoutSeconds := 10 }

/-- The headers httpx attaches to each request issued through the open
client: exactly the headers the client was constructed with (no request in
this code base passes extra headers through `**kwargs`). -/
def requestHeaders (c : OpenClient) : List (String × String) :=
  c.headers

/-! ## invite/cli.py -/

/-- `_normalize_base_url`: strip trailing slashes. -/
def _normalize_base_url (base_url : String) : String :=
  rstripSlash base_url

/-- The file text the `configure` command writes to
`~/.config/invite/config.toml` (after creating parent directories):
a single `base_url = "<normalized>"` entry. -/
def configure (base_url : String) : String :=
  "base_url = \"" ++ _normalize_base_url base_url ++ "\"\n"

/-- Model of `tomllib.load` restricted to the single-entry string-valued
documents that `configure` emits, i.e. exactly `key = "value"` followed by a
newline with no quote inside the value; any other text is a parse failure. -/
def parseSimpleToml (text : String) : Option (List (String × Py)) :=
  let cs := text.data
  let key := cs.takeWhile (fun c => c ≠ ' ')
  match cs.dropWhile (fun c => c ≠ ' ') with
  | ' ' :: '=' :: ' ' :: '"' :: rest =>
    let val := rest.takeWhile (fun c => c ≠ '"')
    match rest.dropWhile (fun c => c ≠ '"') with
    | ['"', '\n'] =>
      if key.isEmpty then none
      else some [(String.mk key, Py.pstr (String.mk val))]
    | _ => none
  | _ => none

/-- `_load_config_base_url` over the config file content (`none` when
`CONFIG_PATH.exists()` is false): parse the TOML, take the `base_url` key and
return `str(base_url)` when it is truthy, `None` otherwise; any exception
(including a parse failure) yields `None`. -/
def _load_config_base_url (content : Option String) : Option String :=
  match content with
  | none => none
  | some text =>
    match parseSimpleToml text with
    | none => none
    | some doc =>
      match doc.lookup "base_url" with
      | some v => if pyTruthy v then some (pyStr v) else none
      | none => none

/-- Result of `_request` in invite/cli.py: 204 returns `None` after printing
a success line; other statuses parse the body (`ValueError` makes the data
`\x7b"detail": text\x7d`), 2xx returns the data, and anything else prints the data
(wrapped in a `detail` dict when it is not a dict) and exits with code 1. -/
inductive InviteReqOutcome where
  | noContent
  | success (data : Py)
  | failure (status : Nat) (printed : Py)
deriving Repr

/-- Body-handling of `_request` in invite/cli.py as a function of the
response. -/
def invite_request (r : HttpResponse) : InviteReqOutcome :=
  if r.status = 204 then .noContent
  else
    let data :=
      match r.jsonParse with
      | some v => v
      | none => .pdict [("detail", .pstr r.text)]
    if 200 ≤ r.status ∧ r.status ≤ 299 then .success data
    else .failure r.status (if pyIsDict data then data else .pdict [("detail", data)])

/-! ## openrsvp_cli/config_cli.py -/

/-- The config path of openrsvp_cli/config.py, `Path.home()/.openrsvp/config.toml`,
with the home directory rendered as `~`. -/
def CONFIG_PATH : String := "~/.openrsvp/config.toml"

/-- The error wrapping an underlying filesystem failure during a config
write. Modelled from the spec: `ConfigWriteError` is referenced by the spec
but its definition is not in src. -/
inductive ConfigWriteFailure where
  | wraps (underlying : String)
deriving DecidableEq, Repr

/-- Outcome of the underlying filesystem write: success, or an OS error with
its message (permission denied, disk full, ...). -/
inductive FsWriteResult where
  | ok
  | fsError (message : String)
deriving DecidableEq, Repr

/-- Modelled from the spec: `save_base_url` is imported by
openrsvp_cli/config_cli.py from openrsvp_cli/config.py but is absent from
src. Per spec section 4.2 it creates parent directories, overwrites the file
with a single normalized `base_url` entry, and returns the absolute path
written, or fails with a write error wrapping the underlying filesystem
error. The written document and the outcome are returned explicitly. -/
def save_base_url (base_url : String) (fs : FsWriteResult) :
    Except ConfigWriteFailure (String × List (String × Py)) :=
  match fs with
  | .ok => .ok (CONFIG_PATH, [("base_url", Py.pstr (rstripSlash base_url))])
  | .fsError m => .error (.wraps m)

/-- Outcome of a CLI command: a printed success message, or a printed error
message together with a nonzero exit code. -/
inductive CliOutcome where
  | success (message : String)
  | failure (exitCode : Nat) (message : String)
deriving DecidableEq, Repr

/-- The `config set-base-url` command (`set_base_url` in config_cli.py): the
positional argument, else the option, else the default URL is passed to
`save_base_url`; any exception is caught and reported as
`Failed to update config: ...` with exit code 1, and success prints the
saved path. -/
def set_base_url (base_url_arg base_url_option : Option String)
    (fs : FsWriteResult) : CliOutcome :=
  let base_url := pyOrDefault (pyOrStr base_url_arg base_url_option) DEFAULT_BASE_URL
  match save_base_url base_url fs with
  | .ok (path, _) => .success ("Saved base_url to " ++ path)
  | .error (.wraps m) => .failure 1 ("Failed to update config: " ++ m)

/-! ## Spec-side definitions used to compare code behavior with claim wording -/

/-- The base-url resolution rule exactly as claim C1 words it: the
highest-precedence non-absent source (explicit, else environment, else
file), else the fixed default, with trailing separators stripped. -/
def spec_resolve_base_url (cli env file : Option String) : String :=
  rstripSlash ((cli.orElse fun _ => env.orElse fun _ => file).getD DEFAULT_BASE_URL)

/-- First truthy (present and non-empty) entry of a list of optional
strings, else the default: the actual resolution order of the Python `or`
chains in `load_settings`. -/
def firstTruthy : List (Option String) → String → String
  | [], d => d
  | o :: rest, d =>
    match o with
    | some s => if s = "" then firstTruthy rest d else s
    | none => firstTruthy rest d

/-- One field of the config-file read rule exactly as claim C2 words it:
the section value when the key is present there, else the top-level value. -/
def specReadField (doc sectionDoc : List (String × Py)) (k : String) : Option String :=
  ((sectionDoc.lookup k).orElse fun _ => doc.lookup k).map pyStr

/-- The config-file read rule exactly as claim C2 words it: prefer the
`openrsvp` section's fields, falling back to the top level for any key the
section is missing; read a flat document from the top level. -/
def spec_read_with_fallback (doc : List (String × Py)) : PartialConfig :=
  match doc.lookup "openrsvp" with
  | some (.pdict sectionDoc) =>
    { base_url := specReadField doc sectionDoc "base_url"
      token := specReadField doc sectionDoc "token"
      default_channel := specReadField doc sectionDoc "default_channel" }
  | _ => extractFields doc

/-- The APIError message rule of `_request`: the payload itself when it is a
string, else the Python `str` of the whole payload when truthy, else the raw
response text. -/
def specApiErrorMessage (payload : Py) (rawText : String) : String :=
  if pyIsStr payload then pyStr payload
  else if pyTruthy payload then pyStr payload
  else rawText

/-! ## Helper lemmas -/

lemma pyOrStr_none_left (b : Option String) : pyOrStr none b = b := rfl

lemma pyOrStr_empty_left (b : Option String) : pyOrStr (some "") b = b := by
  simp [pyOrStr]

lemma chain_eq_firstTruthy (a b c : Option String) (d : String) :
    pyOrDefault (pyOrStr a (pyOrStr b c)) d = firstTruthy [a, b, c] d := by
  rcases a with _ | s <;> rcases b with _ | t <;> rcases c with _ | u <;>
    simp only [pyOrStr, pyOrDefault, firstTruthy] <;>
    split_ifs <;> simp_all [pyOrDefault, firstTruthy]

/-! ## Claims -/

/-- Claim C1, counterexample: with an explicit empty-string base URL and an
environment base URL, `load_settings` resolves to the environment value,
not to the highest-precedence non-absent source (the explicit empty string)
as the claim states. -/
theorem c1_counterexample :
    (load_settings (some "") none none
        ⟨some "http://env.example", none, none⟩ PartialConfig.empty).base_url
      ≠ spec_resolve_base_url (some "") (some "http://env.example") none := by
  decide

/-- Claim C1 as amended: `load_settings` resolves `base_url` to the
highest-precedence source that is present and non-empty (explicit, else
environment, else file), else the fixed default, with trailing path
separators stripped from the result. -/
theorem c1_base_url_truthy_precedence (cb ct cd : Option String)
    (env file : PartialConfig) (oj q : Bool) :
    (load_settings cb ct cd env file oj q).base_url
      = rstripSlash (firstTruthy [cb, env.base_url, file.base_url] DEFAULT_BASE_URL) := by
  simp only [load_settings]
  exact congrArg rstripSlash (chain_eq_firstTruthy _ _ _ _)

/-- The concrete document refuting claim C2: a top-level `base_url` next to
an `openrsvp` section that only holds `token`. -/
def c2doc : List (String × Py) :=
  [("base_url", .pstr "https://top"), ("openrsvp", .pdict [("token", .pstr "tok")])]

/-- Claim C2, counterexample: on a document with a top-level `base_url` and
an `openrsvp` section missing that key, the code reads `base_url` as absent,
while the claim's per-key fallback rule would read the top-level value. -/
theorem c2_counterexample :
    _read_config_file (.loaded c2doc) = .ok ⟨none, some "tok", none⟩
      ∧ spec_read_with_fallback c2doc = ⟨some "https://top", some "tok", none⟩
      ∧ (⟨none, some "tok", none⟩ : PartialConfig) ≠ ⟨some "https://top", some "tok", none⟩ := by
  refine ⟨rfl, by decide, by decide⟩

/-- Claim C2 as amended: when the parsed document binds `openrsvp` to a
nested table, `read` takes all fields exclusively from that table (keys
missing there are absent, with no fallback to the top level); when there is
no `openrsvp` key, fields are read from the top level. -/
theorem c2_section_replaces_top_level (doc sectionDoc : List (String × Py)) :
    (doc.lookup "openrsvp" = some (.pdict sectionDoc) →
        _read_config_file (.loaded doc) = .ok (extractFields sectionDoc))
      ∧ (doc.lookup "openrsvp" = none →
        _read_config_file (.loaded doc) = .ok (extractFields doc)) := by
  constructor <;> intro h <;> simp [_read_config_file, h]

/-- Witness for C2: the amended theorem applied to the concrete document
`c2doc`, whose section holds only `token`. -/
theorem c2_witness :
    _read_config_file (.loaded c2doc) = .ok (extractFields [("token", .pstr "tok")]) :=
  (c2_section_replaces_top_level c2doc [("token", .pstr "tok")]).1 rfl

/-- Claim C3: a missing config file and a config file whose parsing raises
both make `read` return the all-absent result without raising. -/
theorem c3_missing_or_malformed_reads_empty :
    _read_config_file .missing = .ok PartialConfig.empty
      ∧ _read_config_file .loadError = .ok PartialConfig.empty :=
  ⟨rfl, rfl⟩

/-- Claim C4: every response with status 401 or 403 makes `_request` raise
`AuthError` with that status and the fixed guidance message, whatever the
body holds and before any body parsing, so never `NetworkError` or a plain
`APIError`. -/
theorem c4_auth_status_always_auth_error (base : String) (r : HttpResponse)
    (h : r.status = 401 ∨ r.status = 403) :
    requestOutcome base (.resp r) = .authError r.status authGuidance := by
  simp only [requestOutcome]
  rw [if_pos h]

/-- Witness for C4: a 401 response whose body is not valid JSON. -/
theorem c4_witness :
    requestOutcome "http://localhost:8000" (.resp ⟨401, none, "not json"⟩)
      = .authError 401 authGuidance :=
  c4_auth_status_always_auth_error "http://localhost:8000" ⟨401, none, "not json"⟩ (Or.inl rfl)

/-- The concrete 404 response of claim C5: JSON body `\x7b"detail": "not found"\x7d`. -/
def c5resp : HttpResponse :=
  ⟨404, some (.pdict [("detail", .pstr "not found")]), "\x7b\"detail\": \"not found\"\x7d"⟩

/-- Claim C5, counterexample: the 404 response with body
`\x7b"detail": "not found"\x7d` raises `APIError` whose message is the Python
`str` of the whole payload, not `"not found"` as the claim states; and a
304 response, although non-2xx and outside 401/403, returns success rather
than raising `APIError`. -/
theorem c5_counterexample :
    requestOutcome "http://localhost:8000" (.resp c5resp)
        = .apiError 404 "\x7b\x27detail\x27: \x27not found\x27\x7d"
            (.pdict [("detail", .pstr "not found")])
      ∧ "\x7b\x27detail\x27: \x27not found\x27\x7d" ≠ "not found"
      ∧ requestOutcome "http://localhost:8000" (.resp ⟨304, none, ""⟩)
        = .success (.pstr "") := by
  refine ⟨rfl, by decide, rfl⟩

/-- Claim C5 as amended: a 4xx/5xx status outside 401/403 raises `APIError`
with that status, the raw payload, and a message that is the payload itself
when it is a string, else the Python string rendering of the whole payload
when the payload is truthy, else the raw response text; in particular the
404 example carries message `str(\x7b'detail': 'not found'\x7d)` and the parsed
object as payload. -/
theorem c5_api_error_shape (base : String) (r : HttpResponse)
    (h1 : 400 ≤ r.status) (h2 : r.status ≤ 599)
    (h3 : r.status ≠ 401) (h4 : r.status ≠ 403) :
    requestOutcome base (.resp r)
      = .apiError r.status (specApiErrorMessage (responsePayload r) r.text)
          (responsePayload r) := by
  have hne : ¬ (r.status = 401 ∨ r.status = 403) := by
    rintro (h | h)
    · exact h3 h
    · exact h4 h
  have herr : isErrorStatus r.status = true := by
    simp only [isErrorStatus, Bool.and_eq_true, decide_eq_true_eq]
    exact ⟨h1, h2⟩
  simp only [requestOutcome, if_neg hne, herr, if_pos]
  congr 1
  simp only [specApiErrorMessage]
  split_ifs <;> simp_all [pyStr]

/-- Witness for C5: the amended theorem applied to the concrete 404
response, with the message evaluated. -/
theorem c5_witness :
    requestOutcome "http://localhost:8000" (.resp c5resp)
      = .apiError 404 "\x7b\x27detail\x27: \x27not found\x27\x7d"
          (.pdict [("detail", .pstr "not found")]) := by
  have h := c5_api_error_shape "http://localhost:8000" c5resp
    (by decide) (by decide) (by decide) (by decide)
  simpa [c5resp, responsePayload, specApiErrorMessage, pyIsStr, pyTruthy, pyStr,
    pyRepr, pyReprFields] using h

/-- Claim C6: a 204 response with no body is a success with the absent
payload (the falsy empty string in `APIClient._request`, and literally no
data in invite's `_request`), not an error and not a parse failure. -/
theorem c6_204_success (base : String) :
    requestOutcome base (.resp ⟨204, none, ""⟩) = .success (.pstr "")
      ∧ invite_request ⟨204, none, ""⟩ = .noContent :=
  ⟨rfl, rfl⟩

/-- The settings refuting claim C7: a token that is present but empty. -/
def c7settings : Settings :=
  ⟨"http://localhost:8000", some "", none, false, false⟩

/-- Claim C7, counterexample: with a present empty-string token the client
attaches no `Authorization` header at all, although the claim requires one
whenever the resolved token is present. -/
theorem c7_counterexample :
    c7settings.token = some ""
      ∧ requestHeaders (aenter c7settings) = []
      ∧ (some "" : Option String) ≠ none := by
  refine ⟨rfl, rfl, by decide⟩

/-- Claim C7 as amended: every request of a client opened on given
settings carries `Authorization: Bearer <token>` exactly when the token is
present and non-empty; with an absent or empty token no header is attached. -/
theorem c7_bearer_header_nonempty_token (s : Settings) (t : String) :
    (s.token = some t → t ≠ "" →
        requestHeaders (aenter s) = [("Authorization", "Bearer " ++ t)])
      ∧ ((s.token = none ∨ s.token = some "") → requestHeaders (aenter s) = []) := by
  constructor
  · intro h ht
    simp [requestHeaders, aenter, aenterHeaders, h, ht]
  · rintro (h | h) <;> simp [requestHeaders, aenter, aenterHeaders, h]

/-- Witness for C7: explicit token `abc` yields the bearer header. -/
theorem c7_witness :
    requestHeaders (aenter ⟨"http://localhost:8000", some "abc", none, false, false⟩)
      = [("Authorization", "Bearer abc")] :=
  (c7_bearer_header_nonempty_token
    ⟨"http://localhost:8000", some "abc", none, false, false⟩ "abc").1 rfl (by decide)

/-- Claim C8: `configure "https://example.com/"` writes a single normalized
`base_url` entry (trailing slash stripped at write time), and reading that
content back yields `base_url = "https://example.com"`. -/
theorem c8_write_read_round_trip :
    configure "https://example.com/" = "base_url = \"https://example.com\"\n"
      ∧ _load_config_base_url (some (configure "https://example.com/"))
        = some "https://example.com" := by
  refine ⟨by decide, by decide⟩

/-- Claim C9: `save_base_url` returns the absolute config path (with the
normalized single-entry document) on success and fails with the write error
wrapping the underlying filesystem message otherwise; the `set-base-url`
command surfaces that failure to the user with exit code 1 and reports the
saved path on success. -/
theorem c9_save_base_url_outcomes (b m : String) (a o : Option String) :
    save_base_url b .ok = .ok (CONFIG_PATH, [("base_url", Py.pstr (rstripSlash b))])
      ∧ save_base_url b (.fsError m) = .error (.wraps m)
      ∧ set_base_url a o (.fsError m) = .failure 1 ("Failed to update config: " ++ m)
      ∧ set_base_url a o .ok = .success ("Saved base_url to " ++ CONFIG_PATH) :=
  ⟨rfl, rfl, rfl, rfl⟩

/-- Claim C10: in `load_settings` an explicit or environment value that is
the empty string behaves exactly like an absent value for every field, and
with all higher sources empty or absent `base_url` falls back through
non-empty lower sources to the hardcoded default. -/
theorem c10_empty_treated_as_absent (cb ct cd : Option String)
    (eb et ec fb ft fc : Option String) (oj q : Bool) :
    load_settings (some "") ct cd ⟨eb, et, ec⟩ ⟨fb, ft, fc⟩ oj q
        = load_settings none ct cd ⟨eb, et, ec⟩ ⟨fb, ft, fc⟩ oj q
      ∧ load_settings cb (some "") cd ⟨eb, et, ec⟩ ⟨fb, ft, fc⟩ oj q
        = load_settings cb none cd ⟨eb, et, ec⟩ ⟨fb, ft, fc⟩ oj q
      ∧ load_settings cb ct (some "") ⟨eb, et, ec⟩ ⟨fb, ft, fc⟩ oj q
        = load_settings cb ct none ⟨eb, et, ec⟩ ⟨fb, ft, fc⟩ oj q
      ∧ load_settings cb ct cd ⟨some "", et, ec⟩ ⟨fb, ft, fc⟩ oj q
        = load_settings cb ct cd ⟨none, et, ec⟩ ⟨fb, ft, fc⟩ oj q
      ∧ load_settings cb ct cd ⟨eb, some "", ec⟩ ⟨fb, ft, fc⟩ oj q
        = load_settings cb ct cd ⟨eb, none, ec⟩ ⟨fb, ft, fc⟩ oj q
      ∧ load_settings cb ct cd ⟨eb, et, some ""⟩ ⟨fb, ft, fc⟩ oj q
        = load_settings cb ct cd ⟨eb, et, none⟩ ⟨fb, ft, fc⟩ oj q
      ∧ (load_settings (some "") ct cd ⟨some "", et, ec⟩ ⟨some "", ft, fc⟩ oj q).base_url
        = DEFAULT_BASE_URL := by
  refine ⟨?_, ?_, ?_, ?_, ?_, ?_, ?_⟩ <;>
    simp [load_settings, pyOrStr_empty_left, pyOrStr_none_left, pyOrDefault,
      DEFAULT_BASE_URL, rstripSlash]

end Invite
